import Mathlib

/-!
Verification of the payroll-processing script (`importlogging.py`).

The source has two components:

* `AIPayroll` — holds a list of AI entities; `process_payroll` iterates them,
  computes a pay amount (`calculate_pay`, rate 1.0 per bit of data usage) and
  issues a credit request to the gateway, logging the outcome per entity.
* `APIUnifier.callAPI` — a string-keyed dispatcher: for service `"bank_api"`
  it inspects `data['action']`; `"credit"` is a no-op success, any other
  action raises `BankAPIUnifierException`; any other service returns `None`.

Numbers are modelled as rationals (the source multiplies by the literal
`1.0`; no float-specific behaviour is claimed).  Python dictionaries are
association lists with `getItem` as the subscript operation; a missing key is
a `KeyError`.  Exceptions are modelled with `Except`.  The rendering of a
number inside an f-string is kept abstract as a parameter `fmt`.
-/

namespace Payroll

/-- A Python value appearing in a `callAPI` payload: the source stores the
action string, the entity id string and the numeric pay amount. -/
inductive Value where
  | str : String → Value
  | num : ℚ → Value
  deriving DecidableEq, Repr

/-- Python `str(...)` of a payload value, as used by the f-string
`f"Unrecognized action: {data['action']}"`. -/
def Value.pyStr : Value → String
  | .str s => s
  | .num q => toString q

/-- A payload mapping, `{"action": ..., "unique_id": ..., "amount": ...}`. -/
def Payload : Type := List (String × Value)

/-- Python dictionary subscript `d[k]`: first binding of the key, `none` when
the key is absent (a `KeyError` at the call site). -/
def getItem : List (String × Value) → String → Option Value
  | [], _ => none
  | (k, v) :: rest, key => if k = key then some v else getItem rest key

/-- The exceptions that can arise in this module.  `bankAPIUnifier` is the
single exception class the source defines (`BankAPIUnifierException`);
`keyError` is Python's error for a missing dictionary key; `nameError` is
Python's error for an undefined name. -/
inductive PyExc where
  | bankAPIUnifier : String → PyExc
  | keyError : String → PyExc
  | nameError : String → PyExc
  deriving DecidableEq, Repr

/-- `APIUnifier.callAPI(service, data)` from the source:

```
if service == "bank_api":
    if data['action'] == 'credit':
        pass
    else:
        raise BankAPIUnifierException(f"Unrecognized action: {data['action']}")
else:
    return None
```

Both branches of the inner conditional subscript `data['action']`
unguardedly, so a payload without the key fails with `KeyError` before any
comparison.  The `credit` branch is `pass`, so the function falls off the end
and returns `None`; the `else:` arm returns `None` explicitly. -/
def callAPI (service : String) (data : List (String × Value)) :
    Except PyExc (Option Value) :=
  if service = "bank_api" then
    match getItem data "action" with
    | none => .error (.keyError "action")
    | some a =>
      if a = .str "credit" then
        .ok none
      else
        .error (.bankAPIUnifier ("Unrecognized action: " ++ a.pyStr))
  else
    .ok none

/-- An AI entity: the source only ever reads its `unique_id` attribute. -/
structure AIEntity where
  unique_id : String
  deriving DecidableEq, Repr

/-- The `AIPayroll` object: its constructor stores the entity collection in
`self.ai_entities` and the class defines no other state. -/
structure AIPayroll where
  ai_entities : List AIEntity
  deriving DecidableEq, Repr

/-- Modelled from the spec: `calculate_data_usage_in_bits` is a placeholder
in the source (`pass` under the comment "Define how to calculate the data
usage of the entity here"); the spec leaves it abstract — a pure,
entity-specific, non-negative numeric measurement supplied externally.  We
therefore take it as a parameter `usage : AIEntity → ℚ` throughout. -/
def UsageMeter : Type := AIEntity → ℚ

/-- `calculate_pay(ai_entity)` from the source:
`return data_usage_bits * 1.0  # $1.00 USD per bit of data`. -/
def calculate_pay (usage : UsageMeter) (ai_entity : AIEntity) : ℚ :=
  usage ai_entity * 1.0

/-- The payload built at the call site in `process_payroll`:
`{"action": "credit", "unique_id": ai_entity.unique_id, "amount": pay}`. -/
def creditPayload (ai_entity : AIEntity) (pay : ℚ) : List (String × Value) :=
  [("action", .str "credit"),
   ("unique_id", .str ai_entity.unique_id),
   ("amount", .num pay)]

/-- A log record emitted through the `logging` module: the source emits
`logging.info(...)` and `logging.error(...)` messages only. -/
inductive LogRecord where
  | info : String → LogRecord
  | error : String → LogRecord
  deriving DecidableEq, Repr

/-- The info-level message of the success branch, line 25 of the source:
`f'Successfully credited ${pay} to AI entity {ai_entity.unique_id}.'`.
`fmt` abstracts the Python rendering of the numeric amount. -/
def successMsg (fmt : ℚ → String) (pay : ℚ) (uid : String) : String :=
  "Successfully credited $" ++ fmt pay ++ " to AI entity " ++ uid ++ "."

/-- The error-level message of the handler, line 27 of the source:
`f"Failed to process payroll for AI entity {ai_entity.unique_id}: {e}"`. -/
def failMsg (uid : String) (detail : String) : String :=
  "Failed to process payroll for AI entity " ++ uid ++ ": " ++ detail

/-- The names bound at module level in `importlogging.py`: the import and the
three class statements.  Note that `APIUnifierException` is not among them. -/
def moduleNames : List String :=
  ["logging", "AIPayroll", "BankAPIUnifierException", "APIUnifier"]

/-- The class name written in the `except` clause of `process_payroll`
(line 26): `except APIUnifierException as e:`. -/
def exceptClauseName : String := "APIUnifierException"

/-- Python name resolution at module scope: an undefined name is a
`NameError` when evaluated. -/
def resolveName (n : String) : Option String :=
  if n ∈ moduleNames then some n else none

/-- The `except APIUnifierException as e:` clause applied to an exception
`exc` that escaped the `try` block.  Python first evaluates the class name of
the clause; if that name is undefined the evaluation itself raises
`NameError` and the original exception is replaced.  If the name resolved to
the module's exception class, a `BankAPIUnifierException` would be caught and
converted into the error log record; any other exception would propagate. -/
def runExceptClause (uid : String) (exc : PyExc) : Except PyExc LogRecord :=
  match resolveName exceptClauseName with
  | none => .error (.nameError exceptClauseName)
  | some _ =>
    match exc with
    | .bankAPIUnifier msg => .ok (.error (failMsg uid msg))
    | e => .error e

/-- One iteration of the `process_payroll` loop for one entity: compute the
pay, issue the credit request to the gateway, and either emit the info log
(success) or enter the `except` clause (failure).  Returns the `callAPI`
invocation made together with the outcome of the `try` statement. -/
def processEntity (usage : UsageMeter) (fmt : ℚ → String) (e : AIEntity) :
    (String × List (String × Value)) × Except PyExc LogRecord :=
  let pay := calculate_pay usage e
  let payload := creditPayload e pay
  (("bank_api", payload),
    match callAPI "bank_api" payload with
    | .ok _ => .ok (.info (successMsg fmt pay e.unique_id))
    | .error exc => runExceptClause e.unique_id exc)

/-- The observable effects of a `process_payroll` run: the `callAPI`
invocations issued (service and payload, in order), the log records emitted
(in order), and the exception propagating out of the method, if any. -/
structure Trace where
  calls : List (String × List (String × Value))
  logs : List LogRecord
  exc : Option PyExc
  deriving DecidableEq, Repr

/-- The `for ai_entity in self.ai_entities:` loop of `process_payroll`: each
entity is processed in sequence order; an exception escaping one iteration
aborts the loop and propagates. -/
def processLoop (usage : UsageMeter) (fmt : ℚ → String) :
    List AIEntity → Trace
  | [] => ⟨[], [], none⟩
  | e :: rest =>
    let step := processEntity usage fmt e
    match step.2 with
    | .ok log =>
      let t := processLoop usage fmt rest
      ⟨step.1 :: t.calls, log :: t.logs, t.exc⟩
    | .error exc => ⟨[step.1], [], some exc⟩

/-- `process_payroll(self)` from the source: runs the loop over
`self.ai_entities`.  The method assigns to no attribute, so the object state
it leaves behind carries the same `ai_entities` field it started with; the
first component is that final object state, the second the trace of effects. -/
def process_payroll (usage : UsageMeter) (fmt : ℚ → String) (p : AIPayroll) :
    AIPayroll × Trace :=
  (⟨p.ai_entities⟩, processLoop usage fmt p.ai_entities)

/-! ## Basic evaluation lemmas -/

/-- The credit payload built in `process_payroll` always carries the action
value `"credit"`, so the gateway call of the loop body succeeds with `None`. -/
theorem callAPI_creditPayload (e : AIEntity) (pay : ℚ) :
    callAPI "bank_api" (creditPayload e pay) = .ok none := rfl

/-- The loop body for one entity: the gateway call succeeds, so the outcome
of the `try` statement is the info log record. -/
theorem processEntity_eq (usage : UsageMeter) (fmt : ℚ → String)
    (e : AIEntity) :
    processEntity usage fmt e =
      (("bank_api", creditPayload e (calculate_pay usage e)),
       .ok (.info (successMsg fmt (calculate_pay usage e) e.unique_id))) := rfl

/-- Unfolding the loop one entity at a time. -/
theorem processLoop_cons (usage : UsageMeter) (fmt : ℚ → String)
    (e : AIEntity) (rest : List AIEntity) :
    processLoop usage fmt (e :: rest) =
      ⟨("bank_api", creditPayload e (calculate_pay usage e))
          :: (processLoop usage fmt rest).calls,
       .info (successMsg fmt (calculate_pay usage e) e.unique_id)
          :: (processLoop usage fmt rest).logs,
       (processLoop usage fmt rest).exc⟩ := by
  simp [processLoop, processEntity_eq]

/-! ## Claims -/

/-- C3: for every entity E, if `calculate_data_usage_in_bits(E)` returns a
non-negative number d, then `calculate_pay(E)` returns `d * 1.0` (rate fixed
at 1.0 monetary unit per bit). -/
theorem calculate_pay_is_usage_times_rate (usage : UsageMeter) (e : AIEntity)
    (d : ℚ) (hd : usage e = d) (hnn : 0 ≤ d) :
    calculate_pay usage e = d * 1.0 := by
  simp [calculate_pay, hd]

/-- Witness for C3 at a concrete meter and entity: usage 100 bits, pay 100. -/
theorem calculate_pay_is_usage_times_rate_witness :
    (fun _ : AIEntity => (100 : ℚ)) ⟨"ai-1"⟩ = (100 : ℚ) ∧
      (0 : ℚ) ≤ 100 ∧
      calculate_pay (fun _ => (100 : ℚ)) ⟨"ai-1"⟩ = 100 * 1.0 :=
  ⟨rfl, by norm_num,
    calculate_pay_is_usage_times_rate (fun _ => (100 : ℚ)) ⟨"ai-1"⟩ 100 rfl
      (by norm_num)⟩

/-- C4: for every payload whose action value equals `"credit"`,
`callAPI("bank_api", payload)` raises no failure: it returns `None`, in
particular it never raises the unrecognized-action error kind. -/
theorem callAPI_credit_never_fails (data : List (String × Value))
    (h : getItem data "action" = some (.str "credit")) :
    callAPI "bank_api" data = .ok none := by
  simp [callAPI, h]

/-- Witness for C4 at the concrete payroll payload of entity ai-1. -/
theorem callAPI_credit_never_fails_witness :
    getItem [("action", Value.str "credit"), ("unique_id", Value.str "ai-1"),
        ("amount", Value.num 100)] "action" = some (Value.str "credit") ∧
      callAPI "bank_api" [("action", Value.str "credit"),
        ("unique_id", Value.str "ai-1"), ("amount", Value.num 100)]
        = .ok none :=
  ⟨rfl, callAPI_credit_never_fails _ rfl⟩

/-- C5: for every payload whose action value is any string other than
`"credit"`, `callAPI("bank_api", payload)` raises the module's only defined
failure kind, `BankAPIUnifierException`, with that action string captured in
the error detail. -/
theorem callAPI_other_action_fails (data : List (String × Value)) (a : String)
    (h : getItem data "action" = some (.str a)) (hne : a ≠ "credit") :
    callAPI "bank_api" data
      = .error (.bankAPIUnifier ("Unrecognized action: " ++ a)) := by
  simp [callAPI, h, Value.pyStr, hne]

/-- Witness for C5 at the action string "debit". -/
theorem callAPI_other_action_fails_witness :
    getItem [("action", Value.str "debit")] "action"
        = some (Value.str "debit") ∧
      "debit" ≠ "credit" ∧
      callAPI "bank_api" [("action", Value.str "debit")]
        = .error (.bankAPIUnifier ("Unrecognized action: " ++ "debit")) :=
  ⟨rfl, by decide, callAPI_other_action_fails _ "debit" rfl (by decide)⟩

/-- C6: for every service string other than `"bank_api"` and every payload,
`callAPI(service, payload)` returns the null result and raises no error —
unknown services are silent no-ops. -/
theorem callAPI_unknown_service_noop (service : String)
    (data : List (String × Value)) (h : service ≠ "bank_api") :
    callAPI service data = .ok none := by
  simp [callAPI, h]

/-- Witness for C6 at the service "crypto_api" (payload even lacks an action
key: still no error). -/
theorem callAPI_unknown_service_noop_witness :
    "crypto_api" ≠ "bank_api" ∧
      callAPI "crypto_api" [] = .ok none :=
  ⟨by decide, callAPI_unknown_service_noop "crypto_api" [] (by decide)⟩

/-- C9: `callAPI("bank_api", payload)` subscripts the payload with the key
`action` unguardedly; for every payload lacking that key the call fails with
a `KeyError`, not the defined `BankAPIUnifierException` kind. -/
theorem callAPI_missing_action_keyError (data : List (String × Value))
    (h : getItem data "action" = none) :
    callAPI "bank_api" data = .error (.keyError "action") ∧
      ∀ msg, callAPI "bank_api" data ≠ .error (.bankAPIUnifier msg) := by
  constructor
  · simp [callAPI, h]
  · intro msg
    simp [callAPI, h]

/-- Witness for C9 at a payload without an action key. -/
theorem callAPI_missing_action_keyError_witness :
    getItem [("unique_id", Value.str "ai-1")] "action" = none ∧
      callAPI "bank_api" [("unique_id", Value.str "ai-1")]
          = .error (.keyError "action") ∧
      ∀ msg, callAPI "bank_api" [("unique_id", Value.str "ai-1")]
          ≠ .error (.bankAPIUnifier msg) :=
  ⟨rfl, callAPI_missing_action_keyError _ rfl⟩

/-- C10: the gateway is embedded as a pure function (the class holds no
state), and its outcome depends only on the service string and the payload's
action value: two calls agreeing on those agree on the result — returned
value or raised error — whatever the unique_id, amount or other fields. -/
theorem callAPI_depends_only_on_action (service : String)
    (d1 d2 : List (String × Value))
    (h : getItem d1 "action" = getItem d2 "action") :
    callAPI service d1 = callAPI service d2 := by
  unfold callAPI
  rw [h]

/-- Witness for C10: two payloads with the same action but different ids and
amounts produce identical outcomes. -/
theorem callAPI_depends_only_on_action_witness :
    getItem [("action", Value.str "credit"), ("unique_id", Value.str "ai-1"),
        ("amount", Value.num 100)] "action"
      = getItem [("action", Value.str "credit"),
        ("unique_id", Value.str "ai-2"), ("amount", Value.num 0)] "action" ∧
    callAPI "bank_api" [("action", Value.str "credit"),
        ("unique_id", Value.str "ai-1"), ("amount", Value.num 100)]
      = callAPI "bank_api" [("action", Value.str "credit"),
        ("unique_id", Value.str "ai-2"), ("amount", Value.num 0)] :=
  ⟨rfl, callAPI_depends_only_on_action "bank_api" _ _ rfl⟩

/-- C2: `process_payroll` over a sequence of N entities issues exactly N
credit requests to the gateway, one per entity, in the order of the held
sequence, each to service `"bank_api"` with that entity's credit payload — in
particular there is no early termination for any individual outcome. -/
theorem process_payroll_issues_all_credits (usage : UsageMeter)
    (fmt : ℚ → String) (p : AIPayroll) :
    (process_payroll usage fmt p).2.calls
        = p.ai_entities.map
            (fun e => ("bank_api", creditPayload e (calculate_pay usage e)))
      ∧ (process_payroll usage fmt p).2.calls.length
        = p.ai_entities.length := by
  have key : ∀ l : List AIEntity,
      (processLoop usage fmt l).calls
        = l.map (fun e => ("bank_api", creditPayload e (calculate_pay usage e))) := by
    intro l
    induction l with
    | nil => rfl
    | cons e rest ih => simp [processLoop_cons, ih]
  refine ⟨key p.ai_entities, ?_⟩
  show (processLoop usage fmt p.ai_entities).calls.length = _
  rw [key p.ai_entities, List.length_map]

/-- C7: every log record emitted by `process_payroll` matches one of the two
templates — the informational success message with the computed pay and the
entity's id substituted, or the error message with the entity's id and a
failure detail substituted. -/
theorem process_payroll_log_templates (usage : UsageMeter)
    (fmt : ℚ → String) (p : AIPayroll) (r : LogRecord)
    (hr : r ∈ (process_payroll usage fmt p).2.logs) :
    (∃ e ∈ p.ai_entities,
        r = .info (successMsg fmt (calculate_pay usage e) e.unique_id)) ∨
    (∃ e ∈ p.ai_entities, ∃ detail,
        r = .error (failMsg e.unique_id detail)) := by
  have key : ∀ l : List AIEntity, r ∈ (processLoop usage fmt l).logs →
      (∃ e ∈ l, r = .info (successMsg fmt (calculate_pay usage e) e.unique_id)) ∨
      (∃ e ∈ l, ∃ detail, r = .error (failMsg e.unique_id detail)) := by
    intro l
    induction l with
    | nil => intro h; simp [processLoop] at h
    | cons e rest ih =>
      intro h
      rw [processLoop_cons] at h
      rcases List.mem_cons.mp h with heq | htail
      · exact Or.inl ⟨e, List.mem_cons_self e rest, heq⟩
      · rcases ih htail with ⟨e', he', hform⟩ | ⟨e', he', hform⟩
        · exact Or.inl ⟨e', List.mem_cons_of_mem e he', hform⟩
        · exact Or.inr ⟨e', List.mem_cons_of_mem e he', hform⟩
  exact key p.ai_entities hr

/-- Witness for C7: the single log record of a one-entity run matches the
informational template. -/
theorem process_payroll_log_templates_witness :
    LogRecord.info (successMsg toString (100 : ℚ) "ai-1")
        ∈ (process_payroll (fun _ => (100 : ℚ)) toString ⟨[⟨"ai-1"⟩]⟩).2.logs ∧
      ((∃ e ∈ ([⟨"ai-1"⟩] : List AIEntity),
          LogRecord.info (successMsg toString (100 : ℚ) "ai-1")
            = .info (successMsg toString
                (calculate_pay (fun _ => (100 : ℚ)) e) e.unique_id)) ∨
       (∃ e ∈ ([⟨"ai-1"⟩] : List AIEntity), ∃ detail,
          LogRecord.info (successMsg toString (100 : ℚ) "ai-1")
            = .error (failMsg e.unique_id detail))) := by
  have hmem : LogRecord.info (successMsg toString (100 : ℚ) "ai-1")
      ∈ (process_payroll (fun _ => (100 : ℚ)) toString ⟨[⟨"ai-1"⟩]⟩).2.logs := by
    show _ ∈ (processLoop _ _ _).logs
    rw [processLoop_cons]
    simp [calculate_pay]
    norm_num
  exact ⟨hmem,
    process_payroll_log_templates (fun _ => (100 : ℚ)) toString ⟨[⟨"ai-1"⟩]⟩ _ hmem⟩

/-- C8: the held entity collection is set at construction and left unchanged
by `process_payroll`: the object state after a run equals the constructed
object — no element added, removed or modified. -/
theorem process_payroll_preserves_entities (usage : UsageMeter)
    (fmt : ℚ → String) (p : AIPayroll) :
    (process_payroll usage fmt p).1 = p ∧
      (process_payroll usage fmt p).1.ai_entities = p.ai_entities := by
  exact ⟨rfl, rfl⟩

/-- C1 (code bug): the except clause of `process_payroll` names the class
`APIUnifierException`, which the module never defines (the defined exception
class is `BankAPIUnifierException`), so a gateway failure reaching the
handler triggers a `NameError` and propagates out of `process_payroll`
instead of being converted into the error log record the spec describes. -/
theorem except_clause_class_undefined :
    resolveName exceptClauseName = none ∧
      runExceptClause "ai-2" (.bankAPIUnifier "Unrecognized action: debit")
        = .error (.nameError "APIUnifierException") ∧
      ∀ uid exc, ∀ r : LogRecord, runExceptClause uid exc ≠ .ok r := by
  refine ⟨rfl, rfl, ?_⟩
  intro uid exc r
  simp [runExceptClause, resolveName, exceptClauseName, moduleNames]

end Payroll
